import Mathlib

/-!
Verification of the `logmanager` package: a shallow embedding of
`logmanager/manager.py` (the `LogManager` configuration builder) and
`logmanager/middleware/middleware.py` (the request-logging middleware),
together with theorems settling the specification's claims.

Python dictionaries are modelled as insertion-ordered association lists
(`Dict α`), dictionary assignment `d[k] = v` as `dictInsert` (which keeps
the position of an existing key, as CPython does), and Python string
operations (`str.strip`, `str.split(',')[0]`, truthiness, `or`) as the
explicit functions below.  Mutation of `self` is modelled by explicit
state passing on `LogManagerState`; filesystem interaction of the
constructor (`os.path.exists` / `os.makedirs`) is modelled by an oracle
`dirExists : String → Bool` plus an emitted list of `FsEffect`s.
-/

/-- The whitespace characters stripped by Python's `str.strip()`. -/
def isPySpace (c : Char) : Bool :=
  c = ' ' || c = '\t' || c = '\n' || c = '\r' || c = '\x0b' || c = '\x0c'

/-- Python `s.strip()`: remove leading and trailing whitespace. -/
def pyStrip (s : String) : String :=
  String.mk (((s.toList.dropWhile isPySpace).reverse.dropWhile isPySpace).reverse)

/-- Python `s.split(',')[0]`: the part of `s` before the first comma
(`s` itself when there is no comma). -/
def beforeFirstComma (s : String) : String :=
  String.mk (s.toList.takeWhile (fun c => c ≠ ','))

/-- Python truthiness of an optional string (`None` and `''` are falsy). -/
def pyTruthy : Option String → Bool
  | none => false
  | some s => s ≠ ""

/-- Python `o or ''` for `o` an optional string. -/
def pyOrEmpty : Option String → String
  | none => ""
  | some s => if s = "" then "" else s

/-- Python `level or default` where `level` is an optional string:
`None` and `''` both fall back to `default`. -/
def pyOrStr (level : Option String) (default : String) : String :=
  match level with
  | none => default
  | some s => if s = "" then default else s

/-- `os.path.join a b` for POSIX paths (two components). -/
def ospathJoin (a b : String) : String :=
  if b.startsWith "/" then b
  else if a = "" then b
  else if a.endsWith "/" then a ++ b
  else a ++ "/" ++ b

/-- A Python `dict` with string keys, as an insertion-ordered association list. -/
abbrev Dict (α : Type) := List (String × α)

/-- Whether key `k` is present in the dictionary. -/
def dictMem (d : Dict α) (k : String) : Bool :=
  d.any (fun p => p.1 == k)

/-- Python `d[k] = v`: overwrite in place when `k` is present (CPython keeps
the key's original position), otherwise append at the end. -/
def dictInsert (k : String) (v : α) (d : Dict α) : Dict α :=
  if dictMem d k then d.map (fun p => if p.1 = k then (k, v) else p)
  else d ++ [(k, v)]

/-- The keys of the dictionary, in insertion order (Python `[*d]`). -/
def dictKeys (d : Dict α) : List String :=
  d.map Prod.fst

/-! ## Embedding of `logmanager/manager.py` -/

/-- An entry of the `formatters` mapping: `{ 'format': ... }`. -/
structure Formatter where
  format : String
deriving DecidableEq

/-- An entry of the `handlers` mapping.  The Python handler dicts are
heterogeneous; the kind-specific keys are optional fields (`none` = the key
is absent from that handler's dict). -/
structure Handler where
  cls : String
  formatter : String
  filename : Option String := none
  whenRotate : Option String := none
  log_group : Option String := none
  stream_name : Option String := none
  use_queues : Option Bool := none
  create_log_group : Option Bool := none
deriving DecidableEq

/-- An entry of the `loggers` mapping, as written by `add_logger`. -/
structure LoggerRoute where
  propagate : Bool
  handlers : List String
  level : String
deriving DecidableEq

/-- The shape of `self._config` (and of the value of the `config` property). -/
structure ConfigDict where
  version : Nat
  disable_existing_loggers : Bool
  formatters : Dict Formatter
  handlers : Dict Handler
  loggers : Dict LoggerRoute
deriving DecidableEq

/-- The attributes of a `LogManager` instance. -/
structure LogManagerState where
  _app_name : String
  _log_dir : Option String
  _log_group : Option String
  _default_log_level : String
  _config : ConfigDict
  _handlers : Dict Handler
  _loggers : Dict LoggerRoute
deriving DecidableEq

/-- A filesystem side effect of the constructor. -/
inductive FsEffect where
  | makedirs (path : String)
deriving DecidableEq

/-- The four formatters defined in `LogManager.__init__`. -/
def defaultFormatters : Dict Formatter :=
  [("default", ⟨"%(levelname)s [%(asctime)s] %(message)s"⟩),
   ("basic", ⟨"%(asctime)s %(levelname)s %(processName)s %(name)s %(message)s"⟩),
   ("full",
    ⟨"%(asctime)s %(levelname)s %(processName)s %(name)s  %(filename)s:%(lineno)d %(message)s"⟩),
   ("db", ⟨"[%(asctime)s]\n%(message)s\n"⟩)]

namespace LogManager

/-- The console handler defined in `LogManager.__init__`. -/
def consoleHandler : Handler :=
  { cls := "logging.StreamHandler", formatter := "basic" }

/-- `LogManager._add_file_handler`.  `os.path.exists` is the oracle
`dirExists`; `os.makedirs` is recorded as an `FsEffect` (its possible
failure, which Python propagates, is outside this model).  Python reads
`self._log_dir` here, which is only ever called when that attribute is
truthy, so the `getD ""` default is never exercised from `init`. -/
def add_file_handler (dirExists : String → Bool) (s : LogManagerState)
    (formatter : String) : LogManagerState × List FsEffect :=
  let dir := s._log_dir.getD ""
  let effects := if dirExists dir then [] else [FsEffect.makedirs dir]
  ({ s with
     _handlers :=
       dictInsert "file"
         ({ cls := "logging.handlers.TimedRotatingFileHandler",
            formatter := formatter,
            filename := some (ospathJoin dir (s._app_name ++ ".log")),
            whenRotate := some "midnight" })
         s._handlers },
   effects)

/-- `LogManager._add_cloudwatch_handler`.  The Python stream name is the
f-string `f'\x7bself._app_name\x7d-\x7b\x7bstrftime:%Y-%m-%d\x7d\x7d'`,
whose doubled braces render as literal braces. -/
def add_cloudwatch_handler (s : LogManagerState) (formatter : String) :
    LogManagerState :=
  { s with
    _handlers :=
      dictInsert "cloudwatch"
        ({ cls := "watchtower.CloudWatchLogHandler",
           formatter := formatter,
           log_group := s._log_group,
           stream_name := some (s._app_name ++ "-\x7bstrftime:%Y-%m-%d\x7d"),
           use_queues := some true,
           create_log_group := some false })
        s._handlers }

/-- `LogManager.__init__`: sets the attributes, builds `self._config` with
empty `handlers`/`loggers` entries, seeds `self._handlers` with the console
handler, adds the file handler iff `log_dir` is truthy and the cloudwatch
handler iff `log_group` is truthy, and starts with no loggers.  Returns the
constructed state together with the filesystem effects performed. -/
def init (dirExists : String → Bool) (app_name log_level : String)
    (log_group log_dir : Option String) : LogManagerState × List FsEffect :=
  let s0 : LogManagerState :=
    { _app_name := app_name,
      _log_dir := log_dir,
      _log_group := log_group,
      _default_log_level := log_level,
      _config :=
        { version := 1,
          disable_existing_loggers := false,
          formatters := defaultFormatters,
          handlers := [],
          loggers := [] },
      _handlers := [("console", consoleHandler)],
      _loggers := [] }
  let step1 := if pyTruthy s0._log_dir then add_file_handler dirExists s0 "full"
               else (s0, [])
  let step2 := if pyTruthy step1.1._log_group
               then add_cloudwatch_handler step1.1 "full"
               else step1.1
  (step2, step1.2)

/-- The `config` property.  Python mutates `self._config` in place
(`config['handlers'] = self._handlers; config['loggers'] = self._loggers`)
and returns that same dict; here the mutation appears as the returned
second component, the updated state. -/
def config (s : LogManagerState) : ConfigDict × LogManagerState :=
  let c := { s._config with handlers := s._handlers, loggers := s._loggers }
  (c, { s with _config := c })

/-- `LogManager.add_logger`: registers (or overwrites) the route for
`logger`, snapshotting the current handler keys (`[*self._handlers]`). -/
def add_logger (s : LogManagerState) (logger : String) (level : Option String)
    (propagate : Bool) : LogManagerState :=
  { s with
    _loggers :=
      dictInsert logger
        ({ propagate := propagate,
           handlers := dictKeys s._handlers,
           level := pyOrStr level s._default_log_level })
        s._loggers }

end LogManager

/-- The fixed logger names seeded by `DefaultLogManager.__init__`. -/
def defaultLoggerNames : List String :=
  ["django.server", "django.request", "django.security.*", "django.db",
   "celery", "celery.worker", "celery.app", "app"]

/-- `DefaultLogManager._add_loggers`: `add_logger` for each name in order. -/
def addLoggers (s : LogManagerState) (loggers : List String) : LogManagerState :=
  loggers.foldl (fun t n => LogManager.add_logger t n none false) s

/-- `DefaultLogManager.__init__`: the base constructor, then the default
loggers, then any caller-supplied loggers (a falsy `loggers` argument adds
nothing). -/
def DefaultLogManager.init (dirExists : String → Bool)
    (app_name log_level : String) (log_group log_dir : Option String)
    (loggers : Option (List String)) : LogManagerState × List FsEffect :=
  let base := LogManager.init dirExists app_name log_level log_group log_dir
  let s1 := addLoggers base.1 defaultLoggerNames
  let s2 := match loggers with
            | some l => if l.isEmpty then s1 else addLoggers s1 l
            | none => s1
  (s2, base.2)

/-! ## Embedding of `logmanager/middleware/middleware.py` -/

/-- An authenticated Django user: truthy, with an integer `id`.
`request.user = none` models an absent or falsy (anonymous) user. -/
structure User where
  id : Nat
deriving DecidableEq

/-- A request, reduced to what the middleware reads: the `META` dict of
WSGI variables and the (possibly absent) authenticated user. -/
structure Request where
  meta : Dict String
  user : Option User
deriving DecidableEq

/-- `request.META.get(k)` / `request.META.get(k, d)` without the default. -/
def Request.metaGet (r : Request) (k : String) : Option String :=
  r.meta.lookup k

/-- `get_client_ip(request, default)`: the `X-Forwarded-For` portion before
the first comma when the header is truthy after stripping, otherwise
`META.get('REMOTE_ADDR', default)`; the chosen value is stripped on
return. -/
def get_client_ip (request : Request) (default : String) : String :=
  let x_forwarded_for := pyOrEmpty (request.metaGet "HTTP_X_FORWARDED_FOR")
  let ip_address :=
    if pyStrip x_forwarded_for ≠ "" then beforeFirstComma x_forwarded_for
    else (request.metaGet "REMOTE_ADDR").getD default
  pyStrip ip_address

/-- A response, reduced to its status code.  Any response object produced
by the inner pipeline is truthy in `response.status_code if response else
500`, which `Option Response` models with `some`. -/
structure Response where
  status_code : Nat
deriving DecidableEq

namespace LogRequestMiddleware

/-- `LogRequestMiddleware.NO_VALUE_MARKER`. -/
def NO_VALUE_MARKER : String := "-"

/-- `LogRequestMiddleware._get_value`: `request.META.get(key, '-')`. -/
def get_value (request : Request) (key : String) : String :=
  (request.metaGet key).getD NO_VALUE_MARKER

/-- `LogRequestMiddleware._get_user_id` composed with the `str(...)` that
`_log_request` applies to its result: `request.user.id` when the user and
the id are truthy (a zero id is falsy in Python), else the marker. -/
def get_user_id (request : Request) : String :=
  match request.user with
  | some u => if u.id = 0 then NO_VALUE_MARKER else toString u.id
  | none => NO_VALUE_MARKER

/-- The list of fields that `_log_request` joins with single spaces, in
order: client IP, `remote_addr,x_forwarded_for`, quoted `method path`,
user id, status code, quoted user agent.  `response = none` models the
`None` left by a raising pipeline, giving status code 500. -/
def logFields (request : Request) (response : Option Response) : List String :=
  let client_ip := get_client_ip request NO_VALUE_MARKER
  let remote_addr := get_value request "REMOTE_ADDR"
  let x_forwarded_for := get_value request "HTTP_X_FORWARDED_FOR"
  let user_agent := get_value request "HTTP_USER_AGENT"
  let method := get_value request "REQUEST_METHOD"
  let path := get_value request "PATH_INFO"
  let status_code := match response with
                     | some resp => resp.status_code
                     | none => 500
  let user_id := get_user_id request
  [client_ip,
   remote_addr ++ "," ++ x_forwarded_for,
   "\"" ++ method ++ " " ++ path ++ "\"",
   user_id,
   toString status_code,
   "\"" ++ user_agent ++ "\""]

/-- `LogRequestMiddleware._log_request`: the single line passed to
`logger.info`. -/
def log_request (request : Request) (response : Option Response) : String :=
  String.intercalate " " (logFields request response)

/-- `LogRequestMiddleware.__call__`.  The inner pipeline `get_response`
either returns a response or raises (modelled by `Except`); the
`try/finally` logs in both cases, with `response` still `None` on the
raising path, and the exception is re-raised (`Except.error`) after the
`finally` block.  The second component collects the lines emitted via
`logger.info`. -/
def call (get_response : Request → Except ε Response) (request : Request) :
    Except ε Response × List String :=
  match get_response request with
  | Except.ok response => (Except.ok response, [log_request request (some response)])
  | Except.error e => (Except.error e, [log_request request none])

end LogRequestMiddleware

/-! ## Specification-side definitions

These definitions are written from the specification's words, to be
compared with the embedded code. -/

/-- Internal consistency of a configuration, as the spec words it: every
handler name referenced by a logger route exists in the handler mapping,
and every formatter name referenced by a handler exists in the formatter
mapping. -/
def configConsistent (c : ConfigDict) : Bool :=
  c.loggers.all (fun route => route.2.handlers.all (fun h => dictMem c.handlers h)) &&
  c.handlers.all (fun h => dictMem c.formatters h.2.formatter)

/-- `ResolveClientIP` as the (amended) spec words it: the part of the
`X-Forwarded-For` header before the first comma, trimmed, when the header
is present and non-empty after trimming; otherwise the trimmed
transport-level remote address when present; otherwise the trimmed
default. -/
def resolveClientIPSpec (request : Request) (default : String) : String :=
  let fallback :=
    match request.metaGet "REMOTE_ADDR" with
    | some addr => pyStrip addr
    | none => pyStrip default
  match request.metaGet "HTTP_X_FORWARDED_FOR" with
  | some header =>
      if pyStrip header = "" then fallback
      else pyStrip (beforeFirstComma header)
  | none => fallback

/-! ## Auxiliary definitions for stating the claims -/

/-- One `add_logger` call, for quantifying over call sequences. -/
structure AddLoggerCall where
  name : String
  level : Option String
  propagate : Bool

/-- Apply a sequence of `add_logger` calls to a builder state. -/
def applyCalls (s : LogManagerState) (calls : List AddLoggerCall) : LogManagerState :=
  calls.foldl (fun t c => LogManager.add_logger t c.name c.level c.propagate) s

/-- Every handler name stored in a logger route exists in the builder's
current handler mapping. -/
def routesConsistent (s : LogManagerState) : Bool :=
  s._loggers.all (fun route => route.2.handlers.all (fun h => dictMem s._handlers h))

/-- A `LogManager` built with neither a log directory nor a log group. -/
def plainState : LogManagerState :=
  (LogManager.init (fun _ => true) "app" "INFO" none none).1

/-- The request of the spec's log-line scenario: no `X-Forwarded-For`,
remote address `10.0.0.5`, `GET /health`, no user agent, no user. -/
def healthRequest : Request :=
  { meta := [("REMOTE_ADDR", "10.0.0.5"), ("REQUEST_METHOD", "GET"),
             ("PATH_INFO", "/health")],
    user := none }

/-- A request whose transport-level remote address carries surrounding
whitespace, and which has no `X-Forwarded-For` header. -/
def spacedRemoteRequest : Request :=
  { meta := [("REMOTE_ADDR", " 10.0.0.5 ")], user := none }

/-- A request with no data at all. -/
def emptyRequest : Request :=
  { meta := [], user := none }

/-! ## Dictionary lemmas -/

/-- Key membership is membership in the key list. -/
theorem dictMem_iff_mem_keys {α : Type} (d : Dict α) (k : String) :
    dictMem d k = true ↔ k ∈ dictKeys d := by
  simp [dictMem, dictKeys, List.any_eq_true, List.mem_map, beq_iff_eq]

/-- Looking up `k` after overwriting every `k`-entry with `(k, v)` finds `v`. -/
theorem lookup_map_overwrite {α : Type} (k : String) (v : α) :
    ∀ d : Dict α, dictMem d k = true →
      (d.map (fun p => if p.1 = k then (k, v) else p)).lookup k = some v := by
  intro d h
  induction d with
  | nil => simp [dictMem] at h
  | cons p t ih =>
    obtain ⟨a, b⟩ := p
    by_cases ha : a = k
    · subst ha
      simp [List.lookup_cons]
    · have ht : dictMem t k = true := by
        simp [dictMem, beq_iff_eq] at h ⊢
        rcases h with h | h
        · exact absurd h ha
        · exact h
      have hk : (k == a) = false := by
        simp [beq_eq_false_iff_ne]
        exact fun he => ha he.symm
      simpa [List.lookup_cons, ha, hk] using ih ht

/-- Looking up `k` in `d ++ [(k, v)]` finds `v` when `k` is not in `d`. -/
theorem lookup_append_new {α : Type} (k : String) (v : α) :
    ∀ d : Dict α, dictMem d k = false → (d ++ [(k, v)]).lookup k = some v := by
  intro d h
  induction d with
  | nil => simp
  | cons p t ih =>
    obtain ⟨a, b⟩ := p
    simp [dictMem, beq_eq_false_iff_ne] at h
    have hk : (k == a) = false := by
      simp [beq_eq_false_iff_ne]
      exact fun he => h.1 he.symm
    have ht : dictMem t k = false := by
      simp [dictMem, beq_eq_false_iff_ne]
      exact h.2
    simpa [List.lookup_cons, hk] using ih ht

/-- After `d[k] = v`, looking up `k` yields `v`. -/
theorem dictInsert_lookup {α : Type} (d : Dict α) (k : String) (v : α) :
    (dictInsert k v d).lookup k = some v := by
  unfold dictInsert
  cases h : dictMem d k
  · simp only [Bool.false_eq_true, if_false]
    exact lookup_append_new k v d h
  · simp only [if_true]
    exact lookup_map_overwrite k v d h

/-- `d[k] = v` keeps the key list when `k` was present, else appends `k`. -/
theorem dictInsert_keys {α : Type} (d : Dict α) (k : String) (v : α) :
    dictKeys (dictInsert k v d) =
      if dictMem d k then dictKeys d else dictKeys d ++ [k] := by
  unfold dictInsert dictKeys
  cases h : dictMem d k
  · simp
  · simp only [if_true, List.map_map]
    apply List.map_congr_left
    intro p _
    by_cases hp : p.1 = k
    · simp [hp]
    · simp [hp]

/-- `d[k] = v` preserves distinctness of the keys. -/
theorem dictInsert_keys_nodup {α : Type} (d : Dict α) (k : String) (v : α)
    (h : (dictKeys d).Nodup) : (dictKeys (dictInsert k v d)).Nodup := by
  rw [dictInsert_keys]
  cases hm : dictMem d k
  · have hk : k ∉ dictKeys d := fun hmem =>
      by rw [(dictMem_iff_mem_keys d k).mpr hmem] at hm; exact Bool.false_ne_true hm.symm
    simp [List.nodup_append, h, hk]
  · simpa using h

/-- Counting entries whose key is `k` is counting `k` among the keys. -/
theorem countP_key {α : Type} (d : Dict α) (k : String) :
    d.countP (fun p => p.1 == k) = (dictKeys d).count k := by
  unfold dictKeys
  rw [List.count, List.countP_map]
  rfl

/-- In a dictionary with distinct keys, `d[k] = v` leaves exactly one entry
whose key is `k`. -/
theorem countP_dictInsert {α : Type} (d : Dict α) (k : String) (v : α)
    (h : (dictKeys d).Nodup) :
    (dictInsert k v d).countP (fun p => p.1 == k) = 1 := by
  rw [countP_key, dictInsert_keys]
  cases hm : dictMem d k
  · have hk : k ∉ dictKeys d := fun hmem =>
      by rw [(dictMem_iff_mem_keys d k).mpr hmem] at hm; exact Bool.false_ne_true hm.symm
    simp [List.count_append, List.count_eq_zero_of_not_mem hk]
  · simp only [if_true]
    exact List.count_eq_one_of_mem h ((dictMem_iff_mem_keys d k).mp hm)

/-- Every entry of `dictInsert k v d` is `(k, v)` or an entry of `d`. -/
theorem mem_of_mem_dictInsert {α : Type} {q : String × α} {k : String} {v : α}
    {d : Dict α} (hq : q ∈ dictInsert k v d) : q = (k, v) ∨ q ∈ d := by
  unfold dictInsert at hq
  by_cases hm : dictMem d k
  · rw [if_pos hm] at hq
    rcases List.mem_map.mp hq with ⟨p, hp, he⟩
    by_cases hp1 : p.1 = k
    · left
      rw [← he]
      simp [hp1]
    · right
      rw [← he]
      simpa [hp1] using hp
  · rw [if_neg hm] at hq
    rcases List.mem_append.mp hq with h | h
    · right
      exact h
    · left
      simpa using h

/-- A key drawn from the key list is a member. -/
theorem dictMem_of_mem_keys {α : Type} {d : Dict α} {k : String}
    (h : k ∈ dictKeys d) : dictMem d k = true :=
  (dictMem_iff_mem_keys d k).mpr h

/-! ## Structure of the constructed builder state -/

/-- The state constructed by `LogManager.__init__`, in closed form: the
four formatters, the console handler, the file handler exactly when
`log_dir` is truthy, the cloudwatch handler exactly when `log_group` is
truthy, and no loggers. -/
theorem init_state_eq (dirExists : String → Bool) (app lvl : String)
    (lg ld : Option String) :
    (LogManager.init dirExists app lvl lg ld).1 =
      { _app_name := app, _log_dir := ld, _log_group := lg,
        _default_log_level := lvl,
        _config := { version := 1, disable_existing_loggers := false,
                     formatters := defaultFormatters, handlers := [],
                     loggers := [] },
        _handlers :=
          [("console", LogManager.consoleHandler)]
          ++ (if pyTruthy ld then
                [("file",
                  { cls := "logging.handlers.TimedRotatingFileHandler",
                    formatter := "full",
                    filename := some (ospathJoin (ld.getD "") (app ++ ".log")),
                    whenRotate := some "midnight" })] else [])
          ++ (if pyTruthy lg then
                [("cloudwatch",
                  { cls := "watchtower.CloudWatchLogHandler",
                    formatter := "full",
                    log_group := lg,
                    stream_name := some (app ++ "-\x7bstrftime:%Y-%m-%d\x7d"),
                    use_queues := some true,
                    create_log_group := some false })] else []),
        _loggers := [] } := by
  cases hld : pyTruthy ld <;> cases hlg : pyTruthy lg <;>
    simp [LogManager.init, LogManager.add_file_handler,
          LogManager.add_cloudwatch_handler, dictInsert, dictMem, hld, hlg]

/-- `add_logger` calls never touch the handler mapping. -/
theorem applyCalls_handlers (s : LogManagerState) (calls : List AddLoggerCall) :
    (applyCalls s calls)._handlers = s._handlers := by
  induction calls generalizing s with
  | nil => rfl
  | cons c t ih => exact ih (LogManager.add_logger s c.name c.level c.propagate)

/-- `add_logger` calls never touch the `_config` attribute. -/
theorem applyCalls_config (s : LogManagerState) (calls : List AddLoggerCall) :
    (applyCalls s calls)._config = s._config := by
  induction calls generalizing s with
  | nil => rfl
  | cons c t ih => exact ih (LogManager.add_logger s c.name c.level c.propagate)

/-- `add_logger` preserves consistency of the logger routes: the new route
references exactly the currently existing handler names. -/
theorem routesConsistent_add_logger {s : LogManagerState}
    (h : routesConsistent s = true) (n : String) (lv : Option String)
    (p : Bool) : routesConsistent (LogManager.add_logger s n lv p) = true := by
  unfold routesConsistent at h ⊢
  rw [List.all_eq_true] at h ⊢
  intro route hroute
  rcases mem_of_mem_dictInsert hroute with he | hmem
  · rw [he]
    rw [List.all_eq_true]
    intro k hk
    exact dictMem_of_mem_keys hk
  · exact h route hmem

/-- Route consistency is preserved by any sequence of `add_logger` calls. -/
theorem routesConsistent_applyCalls (s : LogManagerState)
    (calls : List AddLoggerCall) (h : routesConsistent s = true) :
    routesConsistent (applyCalls s calls) = true := by
  induction calls generalizing s with
  | nil => exact h
  | cons c t ih =>
    exact ih (LogManager.add_logger s c.name c.level c.propagate)
      (routesConsistent_add_logger h c.name c.level c.propagate)

/-- Every handler created by the constructor references a formatter
(`basic` or `full`) that exists among the four default formatters. -/
theorem init_handlers_formatters (dirExists : String → Bool) (app lvl : String)
    (lg ld : Option String) :
    ((LogManager.init dirExists app lvl lg ld).1)._handlers.all
      (fun h => dictMem defaultFormatters h.2.formatter) = true := by
  rw [init_state_eq]
  cases hld : pyTruthy ld <;> cases hlg : pyTruthy lg <;>
    simp [hld, hlg, LogManager.consoleHandler, defaultFormatters, dictMem]

/-! ## The claims -/

/-- Claim C1: for every combination of the optional constructor arguments —
`log_dir` present (a given directory, hence a non-empty string) or absent,
`log_group` present (non-empty) or absent — the handler mapping after
construction contains exactly the handler named `console`, plus the handler
named `file` if and only if `log_dir` was given, plus the cloudwatch
(remote) handler if and only if `log_group` was given. -/
theorem init_handler_mapping (dirExists : String → Bool) (app lvl : String)
    (lg ld : Option String) (hld : ld ≠ some "") (hlg : lg ≠ some "") :
    dictKeys ((LogManager.init dirExists app lvl lg ld).1)._handlers =
      ["console"] ++ (if ld.isSome then ["file"] else [])
        ++ (if lg.isSome then ["cloudwatch"] else []) := by
  have h1 : pyTruthy ld = ld.isSome := by
    cases ld with
    | none => rfl
    | some s =>
      have hs : s ≠ "" := fun h => hld (by rw [h])
      simp [pyTruthy, hs]
  have h2 : pyTruthy lg = lg.isSome := by
    cases lg with
    | none => rfl
    | some s =>
      have hs : s ≠ "" := fun h => hlg (by rw [h])
      simp [pyTruthy, hs]
  rw [init_state_eq]
  cases hd : ld.isSome <;> cases hg : lg.isSome <;>
    simp [dictKeys, h1, h2, hd, hg]

/-- Witness for C1 at `log_dir = "/var/log/svc"`, `log_group = "grp"`:
both hypotheses hold and the handler names are exactly
`console`, `file`, `cloudwatch`. -/
theorem init_handler_mapping_witness :
    ((some "/var/log/svc" : Option String) ≠ some "") ∧
    ((some "grp" : Option String) ≠ some "") ∧
    dictKeys ((LogManager.init (fun _ => true) "svc" "INFO" (some "grp")
        (some "/var/log/svc")).1)._handlers =
      ["console"]
        ++ (if (some "/var/log/svc" : Option String).isSome then ["file"] else [])
        ++ (if (some "grp" : Option String).isSome then ["cloudwatch"] else []) :=
  ⟨by decide, by decide,
   init_handler_mapping (fun _ => true) "svc" "INFO" (some "grp")
     (some "/var/log/svc") (by decide) (by decide)⟩

/-- Claim C2, counterexample: the claim says the fallback is "the
transport-level remote address", but `get_client_ip` strips the chosen
value before returning it.  With `REMOTE_ADDR = " 10.0.0.5 "` (surrounding
whitespace) and no `X-Forwarded-For`, the function returns `"10.0.0.5"`,
not the remote address `" 10.0.0.5 "`. -/
theorem client_ip_fallback_is_stripped :
    spacedRemoteRequest.metaGet "REMOTE_ADDR" = some " 10.0.0.5 " ∧
    spacedRemoteRequest.metaGet "HTTP_X_FORWARDED_FOR" = none ∧
    get_client_ip spacedRemoteRequest "-" = "10.0.0.5" ∧
    get_client_ip spacedRemoteRequest "-" ≠ " 10.0.0.5 " := by
  refine ⟨rfl, rfl, rfl, by decide⟩

/-- Claim C2 as amended: for every request, `get_client_ip` returns the
substring of `X-Forwarded-For` before the first comma, trimmed, when the
header is present and non-empty after trimming; otherwise the trimmed
transport-level remote address when present; otherwise the trimmed
supplied default.  Stated as: the code function equals the function
`resolveClientIPSpec` written from the amended specification text. -/
theorem get_client_ip_eq_spec (r : Request) (d : String) :
    get_client_ip r d = resolveClientIPSpec r d := by
  unfold get_client_ip resolveClientIPSpec
  have hempty : pyStrip "" = "" := rfl
  cases hx : r.metaGet "HTTP_X_FORWARDED_FOR" with
  | none =>
    simp only [pyOrEmpty, hempty, ne_eq, not_true_eq_false, if_false]
    cases ha : r.metaGet "REMOTE_ADDR" <;> simp [hempty]
  | some h =>
    by_cases hh : h = ""
    · subst hh
      simp only [pyOrEmpty, if_pos rfl, hempty, ne_eq, not_true_eq_false, if_false]
      cases ha : r.metaGet "REMOTE_ADDR" <;> simp [hempty]
    · simp only [pyOrEmpty, if_neg hh]
      by_cases hs : pyStrip h = ""
      · simp only [hs, ne_eq, not_true_eq_false, if_false, if_pos rfl]
        cases ha : r.metaGet "REMOTE_ADDR" <;> simp [hs]
      · simp only [ne_eq, hs, not_false_eq_true, if_true, if_neg hs]
        simp

/-- Claim C3: every request produces exactly one log line, the middleware
returns (or re-raises) exactly what the inner pipeline produced, and when
the pipeline raises, the single line is the one logged with `response =
None`, whose status-code field (position 4 of the joined fields) is
`"500"`. -/
theorem call_logs_once_and_reraises (ε : Type)
    (get_response : Request → Except ε Response) (request : Request) :
    (LogRequestMiddleware.call get_response request).2.length = 1 ∧
    (LogRequestMiddleware.call get_response request).1 = get_response request ∧
    ∀ e : ε, get_response request = Except.error e →
      (LogRequestMiddleware.call get_response request).2 =
        [LogRequestMiddleware.log_request request none] ∧
      (LogRequestMiddleware.logFields request none)[4]? = some "500" := by
  refine ⟨?_, ?_, ?_⟩
  · cases h : get_response request <;> simp [LogRequestMiddleware.call, h]
  · cases h : get_response request <;> simp [LogRequestMiddleware.call, h]
  · intro e he
    refine ⟨?_, rfl⟩
    simp [LogRequestMiddleware.call, he]

/-- Witness for C3 on a pipeline that raises on the empty request. -/
theorem call_logs_once_and_reraises_witness :
    (LogRequestMiddleware.call (fun _ => Except.error 0) emptyRequest).2 =
      [LogRequestMiddleware.log_request emptyRequest none] ∧
    (LogRequestMiddleware.logFields emptyRequest none)[4]? = some "500" :=
  (call_logs_once_and_reraises Nat (fun _ => Except.error 0) emptyRequest).2.2 0 rfl

/-- Claim C4, counterexample: reading the `config` property is not
side-effect-free.  On a freshly constructed builder it overwrites the
internal `_config` dict's `handlers` and `loggers` entries, so the
builder's state after the read differs from the state before it. -/
theorem config_mutates_builder_state :
    (LogManager.config plainState).2 ≠ plainState := by
  decide

/-- Claim C4 as amended: each read of the `config` property yields the
configuration whose global settings, formatters, handler mapping and
logger routes are exactly the builder's at the moment of that read (so
reads after further `add_logger` calls reflect the routes at that moment,
with no caching), but the read also stores the assembled configuration
back into the builder's internal `_config` attribute. -/
theorem config_reads_current_state (s : LogManagerState) :
    (LogManager.config s).1.handlers = s._handlers ∧
    (LogManager.config s).1.loggers = s._loggers ∧
    (LogManager.config s).1.formatters = s._config.formatters ∧
    (LogManager.config s).1.version = s._config.version ∧
    (LogManager.config s).1.disable_existing_loggers =
      s._config.disable_existing_loggers ∧
    (LogManager.config s).2 = { s with _config := (LogManager.config s).1 } ∧
    ∀ n lv p,
      (LogManager.config (LogManager.add_logger s n lv p)).1.loggers =
        (LogManager.add_logger s n lv p)._loggers :=
  ⟨rfl, rfl, rfl, rfl, rfl, rfl, fun _ _ _ => rfl⟩

/-- Claim C5: calling `add_logger` twice with the same name leaves exactly
one route for that name, and it is the route of the second call alone
(same result as if the first call had never happened) — last write wins,
no merging. -/
theorem add_logger_twice_last_wins (s : LogManagerState) (x : String)
    (l1 l2 : Option String) (p1 p2 : Bool)
    (h : (dictKeys s._loggers).Nodup) :
    ((LogManager.add_logger (LogManager.add_logger s x l1 p1) x l2 p2)._loggers).countP
        (fun q => q.1 == x) = 1 ∧
    ((LogManager.add_logger (LogManager.add_logger s x l1 p1) x l2 p2)._loggers).lookup x =
      some { propagate := p2, handlers := dictKeys s._handlers,
             level := pyOrStr l2 s._default_log_level } ∧
    ((LogManager.add_logger (LogManager.add_logger s x l1 p1) x l2 p2)._loggers).lookup x =
      ((LogManager.add_logger s x l2 p2)._loggers).lookup x := by
  refine ⟨?_, ?_, ?_⟩
  · exact countP_dictInsert _ x _ (dictInsert_keys_nodup _ x _ h)
  · exact dictInsert_lookup _ x _
  · exact (dictInsert_lookup _ x _).trans (dictInsert_lookup _ x _).symm

/-- Witness for C5: `add_logger "x"` then `add_logger "x" "DEBUG" true` on
a fresh builder. -/
theorem add_logger_twice_last_wins_witness :
    ((LogManager.add_logger (LogManager.add_logger plainState "x" none false) "x"
        (some "DEBUG") true)._loggers).countP (fun q => q.1 == "x") = 1 ∧
    ((LogManager.add_logger (LogManager.add_logger plainState "x" none false) "x"
        (some "DEBUG") true)._loggers).lookup "x" =
      some { propagate := true, handlers := dictKeys plainState._handlers,
             level := pyOrStr (some "DEBUG") plainState._default_log_level } ∧
    ((LogManager.add_logger (LogManager.add_logger plainState "x" none false) "x"
        (some "DEBUG") true)._loggers).lookup "x" =
      ((LogManager.add_logger plainState "x" (some "DEBUG") true)._loggers).lookup "x" :=
  add_logger_twice_last_wins plainState "x" none (some "DEBUG") false true (by decide)

/-- Claim C6: every `add_logger` call stores a route whose `handlers`
field is the complete list of handler names existing at call time (a
by-value snapshot: a later change to the handler mapping, here adding the
cloudwatch handler, leaves the stored route unchanged), and whose level is
the builder's default severity when the `level` argument is omitted. -/
theorem add_logger_snapshot_and_default_level (s : LogManagerState) (n : String)
    (lv : Option String) (p : Bool) :
    ((LogManager.add_logger s n lv p)._loggers).lookup n =
      some { propagate := p, handlers := dictKeys s._handlers,
             level := pyOrStr lv s._default_log_level } ∧
    ((LogManager.add_logger s n none p)._loggers).lookup n =
      some { propagate := p, handlers := dictKeys s._handlers,
             level := s._default_log_level } ∧
    (LogManager.add_cloudwatch_handler (LogManager.add_logger s n lv p) "full")._loggers =
      (LogManager.add_logger s n lv p)._loggers :=
  ⟨dictInsert_lookup _ _ _, dictInsert_lookup _ _ _, rfl⟩

/-- Claim C7: after construction with any arguments and any sequence of
`add_logger` calls, the configuration read from the builder satisfies the
cross-reference invariant: every handler name in any logger route exists
in the handler mapping, and every formatter name referenced by a handler
exists in the formatter mapping. -/
theorem config_cross_reference_invariant (dirExists : String → Bool)
    (app lvl : String) (lg ld : Option String) (calls : List AddLoggerCall) :
    configConsistent
      ((LogManager.config
        (applyCalls ((LogManager.init dirExists app lvl lg ld).1) calls)).1) = true := by
  have hbase : routesConsistent ((LogManager.init dirExists app lvl lg ld).1) = true := by
    simp [routesConsistent, init_state_eq]
  have hroutes := routesConsistent_applyCalls _ calls hbase
  have hh := applyCalls_handlers ((LogManager.init dirExists app lvl lg ld).1) calls
  have hc := applyCalls_config ((LogManager.init dirExists app lvl lg ld).1) calls
  unfold configConsistent LogManager.config
  rw [Bool.and_eq_true]
  constructor
  · exact hroutes
  · rw [hh, hc,
        (show ((LogManager.init dirExists app lvl lg ld).1)._config.formatters =
            defaultFormatters by rw [init_state_eq])]
    exact init_handlers_formatters dirExists app lvl lg ld

/-- Claim C8: for a request with no `X-Forwarded-For`, remote address
`10.0.0.5`, method `GET`, path `/health`, no authenticated user and a
response with status 200, the emitted line is exactly
`10.0.0.5 10.0.0.5,- "GET /health" - 200 "-"`, the fields joined in the
fixed order with `-` for every absent field. -/
theorem health_request_log_line :
    LogRequestMiddleware.logFields healthRequest (some ⟨200⟩) =
      ["10.0.0.5", "10.0.0.5,-", "\"GET /health\"", "-", "200", "\"-\""] ∧
    LogRequestMiddleware.log_request healthRequest (some ⟨200⟩) =
      "10.0.0.5 10.0.0.5,- \"GET /health\" - 200 \"-\"" :=
  ⟨rfl, rfl⟩

/-- Claim C9: empty-string (falsy) `log_dir` and `log_group` arguments are
treated exactly like absent ones: the handler mapping equals the one of
the no-argument construction (only `console`), no `file` or `cloudwatch`
handler exists, and no directory creation is attempted. -/
theorem falsy_arguments_treated_as_absent (dirExists : String → Bool)
    (app lvl : String) :
    (LogManager.init dirExists app lvl (some "") (some "")).1._handlers =
      (LogManager.init dirExists app lvl none none).1._handlers ∧
    (LogManager.init dirExists app lvl (some "") (some "")).2 = [] ∧
    dictKeys (LogManager.init dirExists app lvl (some "") (some "")).1._handlers =
      ["console"] ∧
    dictMem (LogManager.init dirExists app lvl (some "") (some "")).1._handlers
      "file" = false ∧
    dictMem (LogManager.init dirExists app lvl (some "") (some "")).1._handlers
      "cloudwatch" = false :=
  ⟨rfl, rfl, rfl, rfl, rfl⟩

/-- Claim C10: when `X-Forwarded-For` is non-empty after trimming but its
portion before the first comma is whitespace-only (here `" ,5.6.7.8"`),
`get_client_ip` returns the empty string, regardless of the remote address
and of the supplied default — neither is consulted. -/
theorem forwarded_header_whitespace_entry_yields_empty (ra d : String) :
    get_client_ip
      { meta := [("HTTP_X_FORWARDED_FOR", " ,5.6.7.8"), ("REMOTE_ADDR", ra)],
        user := none } d = "" := rfl
